import Mathlib

/-!
Verification development for the Brightspace MCP server's API-client
infrastructure: credential manager and encrypted session store, token-bucket
rate limiter, TTL response cache, the `get` request lifecycle of the D2L API
client, and environment/config-store configuration loading.

Times are embedded as exact numbers: millisecond timestamps as `Int` for the
credential manager, and a single rational clock for the client model (the
token bucket's refill rate is expressed per unit of that clock).
-/

/-- Origin tag of a credential record (`TokenData.source` in
`src/types/index.ts`): `browser` for a bearer token captured from a browser
session, `cookie` for a session-cookie credential. -/
inductive TokenSource where
  | browser
  | cookie
deriving DecidableEq, Repr

/-- Credential record (`TokenData` in `src/types/index.ts`): the short-lived
secret plus capture/expiry timestamps (milliseconds) and origin tag. -/
structure TokenData where
  accessToken : String
  capturedAt : Int
  expiresAt : Int
  source : TokenSource
deriving DecidableEq, Repr

/-- The 5-minute expiry safety buffer, in milliseconds. -/
def refreshBufferMs : Int := 5 * 60 * 1000

/-- Modelled from the spec: `TokenManager.isValid` (src/auth/token-manager.ts
is not under src/); `record.expiresAt − now > refreshBufferMs` with a 5-minute
buffer. -/
def TokenManager.isValid (now : Int) (t : TokenData) : Bool :=
  decide (t.expiresAt - now > refreshBufferMs)

/-- Discovered product versions (`ApiVersions` in src/api/types.ts, not under
src/): version strings for the "lp" and "le" products, set once by version
discovery. -/
structure ApiVersions where
  lp : String
  le : String
deriving DecidableEq, Repr

/-- Modelled from the spec: `D2LApiClient.lp` path builder
(src/api/client.ts is not under src/): `/d2l/api/lp/{lpVersion}{subpath}`. -/
def D2LApiClient.lp (v : ApiVersions) (subpath : String) : String :=
  "/d2l/api/lp/" ++ v.lp ++ subpath

/-- Modelled from the spec: `D2LApiClient.le` path builder
(src/api/client.ts is not under src/):
`/d2l/api/le/{leVersion}/{orgUnitId}{subpath}`. -/
def D2LApiClient.le (v : ApiVersions) (orgUnitId : Nat) (subpath : String) : String :=
  "/d2l/api/le/" ++ v.le ++ "/" ++ toString orgUnitId ++ subpath

/-- Modelled from the spec: `D2LApiClient.leGlobal` path builder
(src/api/client.ts is not under src/): `/d2l/api/le/{leVersion}{subpath}`. -/
def D2LApiClient.leGlobal (v : ApiVersions) (subpath : String) : String :=
  "/d2l/api/le/" ++ v.le ++ subpath

/-- Token-bucket rate limiter state (`TokenBucket` in src/api/rate-limiter.ts,
not under src/): a capped, continuously refilled counter of permits. The
capacity is an integer in the spec's data model; it is embedded as a rational
constant so it can be compared with the fractional token count. -/
structure TokenBucket where
  availableTokens : ℚ
  lastRefillAt : ℚ
  capacity : ℚ
  refillPerSecond : ℚ
deriving DecidableEq, Repr

/-- Modelled from the spec: the replenish step of every acquisition attempt —
add `elapsed × refillPerSecond` tokens capped at `capacity` and update
`lastRefillAt`. -/
def TokenBucket.refill (b : TokenBucket) (now : ℚ) : TokenBucket :=
  { b with
    availableTokens :=
      min (b.availableTokens + (now - b.lastRefillAt) * b.refillPerSecond) b.capacity
    lastRefillAt := now }

/-- Modelled from the spec: `TokenBucket.tryAcquire` — replenish first, then
debit one token and grant if at least one token is available, else deny. -/
def TokenBucket.tryAcquire (b : TokenBucket) (now : ℚ) : Bool × TokenBucket :=
  let r := b.refill now
  if 1 ≤ r.availableTokens then
    (true, { r with availableTokens := r.availableTokens - 1 })
  else
    (false, r)

/-- Run a sequence of acquisition attempts, one at each listed instant,
collecting the grant decisions in order. -/
def TokenBucket.acquireSeq (b : TokenBucket) : List ℚ → List Bool × TokenBucket
  | [] => ([], b)
  | t :: ts =>
    let (g, b₁) := b.tryAcquire t
    let (gs, b₂) := b₁.acquireSeq ts
    (g :: gs, b₂)

/-- The default bucket configuration: capacity 10, refill 3 tokens/second,
starting full at time 0. -/
def specBucket : TokenBucket := ⟨10, 0, 10, 3⟩

/-- A cached response: opaque payload plus absolute expiry time in
milliseconds. -/
structure CacheEntry where
  value : String
  expiresAt : Int
deriving DecidableEq, Repr

/-- Modelled from the spec: `TTLCache.get` (src/api/cache.ts is not under
src/). An entry is eligible only while `now < expiresAt`; an expired entry is
treated as absent and removed on read. Returns the hit (if any) together with
the cache after the lazy expiry check. -/
def TTLCache.get : List (String × CacheEntry) → String → Int → Option String × List (String × CacheEntry)
  | [], _, _ => (none, [])
  | (k, e) :: rest, key, now =>
    if k = key then
      if now < e.expiresAt then (some e.value, (k, e) :: rest)
      else (none, rest)
    else
      let (v, rest') := TTLCache.get rest key now
      (v, (k, e) :: rest')

/-- Modelled from the spec: `TTLCache.set` (src/api/cache.ts is not under
src/): store `value` under `key` with expiry `now + ttl`, overwriting any
previous entry for the key. -/
def TTLCache.set (cache : List (String × CacheEntry)) (key : String) (value : String)
    (ttl : Int) (now : Int) : List (String × CacheEntry) :=
  (key, ⟨value, now + ttl⟩) :: cache.filter (fun p => p.1 ≠ key)

/-- Modelled from the spec: the credential manager as seen by the API client
(src/auth/token-manager.ts is not under src/). Successive `getCredential`
reads are scripted by `upcoming` — a later read may observe a different
credential because a concurrently completed external re-authentication wrote
one — and `clearCredential` makes every subsequent read absent. -/
structure CredMgr where
  upcoming : List (Option TokenData)
  cleared : Bool
deriving DecidableEq, Repr

/-- One credential read: absent forever once cleared, otherwise the next
scripted value (absent when the script is exhausted). -/
def CredMgr.getCredential (m : CredMgr) : Option TokenData × CredMgr :=
  if m.cleared then (none, m)
  else
    match m.upcoming with
    | [] => (none, m)
    | r :: rs => (r, { m with upcoming := rs })

/-- Remove the credential from memory and disk: every later read is absent. -/
def CredMgr.clearCredential (m : CredMgr) : CredMgr :=
  { m with cleared := true }

/-- The authentication header attached to one network attempt: exactly one of
a bearer `Authorization` header or a `Cookie` header. -/
inductive AuthHeader where
  | bearer (token : String)
  | cookie (value : String)
deriving DecidableEq, Repr

/-- Does the secret carry the recognized `cookie:` marker? -/
def hasCookieMarker (s : String) : Bool :=
  "cookie:".toList.isPrefixOf s.toList

/-- Modelled from the spec: header selection — a secret with the `cookie:`
marker is sent as a `Cookie` header with the marker stripped, any other secret
as a bearer `Authorization` header. -/
def authHeaderFor (accessToken : String) : AuthHeader :=
  if hasCookieMarker accessToken then .cookie (String.mk (accessToken.toList.drop 7))
  else .bearer accessToken

/-- An HTTP response as the client observes it: status code, parsed
`Retry-After` header in seconds (when present), body text. -/
structure HttpResponse where
  status : Nat
  retryAfterSecs : Option Nat
  body : String
deriving DecidableEq, Repr

/-- Outcome of one physical network attempt: an HTTP response, or a
transport-level failure before any status was obtained. -/
inductive FetchOutcome where
  | response (r : HttpResponse)
  | transportFailure (cause : String)
deriving DecidableEq, Repr

/-- The typed result kinds a `get` call resolves to (mirroring the error
taxonomy of src/api/errors.ts, which is not under src/): success,
authentication-kind API error, rate-limit error with retry-after hint,
API-kind error with status and body, network-kind error with cause. -/
inductive ApiOutcome where
  | success (body : String)
  | authFailure (status : Nat)
  | rateLimited (retryAfterSecs : Option Nat)
  | apiFailure (status : Nat) (body : String)
  | networkFailure (cause : String)
deriving DecidableEq, Repr

/-- The mutable collaborators one API client instance owns or references:
response cache, rate limiter, credential manager. -/
structure ClientState where
  cache : List (String × CacheEntry)
  bucket : TokenBucket
  creds : CredMgr
deriving DecidableEq, Repr

/-- Everything observable about one logical `get` call: its outcome, the
client state afterwards, the unconsumed tail of the scripted network, the
number of physical network attempts, and the auth header sent on each
attempt in order. -/
structure GetResult where
  outcome : ApiOutcome
  state : ClientState
  pending : List FetchOutcome
  networkCalls : Nat
  sent : List AuthHeader
deriving DecidableEq, Repr

/-- Modelled from the spec: status-code policy for a response that is not a
401 (steps 8–10 of the `get` lifecycle): 429 fails with a rate-limit error
carrying the parsed `Retry-After`; any other non-2xx fails with an API error
carrying status and body; a 2xx succeeds and is written to the cache exactly
when the caller supplied a TTL. -/
def finishResponse (r : HttpResponse) (path : String) (ttl : Option Int) (now : Int)
    (cache : List (String × CacheEntry)) (bucket : TokenBucket) (creds : CredMgr)
    (pending : List FetchOutcome) (calls : Nat) (sent : List AuthHeader) : GetResult :=
  if r.status = 429 then
    ⟨.rateLimited r.retryAfterSecs, ⟨cache, bucket, creds⟩, pending, calls, sent⟩
  else if 200 ≤ r.status ∧ r.status < 300 then
    let cache' :=
      match ttl with
      | some t => TTLCache.set cache path r.body t now
      | none => cache
    ⟨.success r.body, ⟨cache', bucket, creds⟩, pending, calls, sent⟩
  else
    ⟨.apiFailure r.status r.body, ⟨cache, bucket, creds⟩, pending, calls, sent⟩

/-- Modelled from the spec: the `D2LApiClient.get` request lifecycle
(src/api/client.ts is not under src/), with the network embedded as the
scripted list of outcomes the transport will produce, in order. Steps: cache
check (only when a TTL option was supplied), rate-limit acquire, credential
attach, transport call, status-code policy with the single automatic retry on
401, cache write on success. The bucket's clock is the same millisecond
instant cast to `ℚ`. `none` means the model does not cover the run: a
blocking rate-limit wait or an exhausted network script. -/
def D2LApiClient.get (st : ClientState) (script : List FetchOutcome) (path : String)
    (ttl : Option Int) (now : Int) : Option GetResult :=
  let step1 : Option String × List (String × CacheEntry) :=
    match ttl with
    | some _ => TTLCache.get st.cache path now
    | none => (none, st.cache)
  match step1 with
  | (some v, cache') => some ⟨.success v, { st with cache := cache' }, script, 0, []⟩
  | (none, cache') =>
    match st.bucket.tryAcquire (now : ℚ) with
    | (false, _) => none
    | (true, bucket₁) =>
      match st.creds.getCredential with
      | (none, creds₁) => some ⟨.authFailure 401, ⟨cache', bucket₁, creds₁⟩, script, 0, []⟩
      | (some tok, creds₁) =>
        let hdr₁ := authHeaderFor tok.accessToken
        match script with
        | [] => none
        | .transportFailure cause :: rest₁ =>
          some ⟨.networkFailure cause, ⟨cache', bucket₁, creds₁⟩, rest₁, 1, [hdr₁]⟩
        | .response r₁ :: rest₁ =>
          if r₁.status = 401 then
            match creds₁.getCredential with
            | (none, creds₂) =>
              some ⟨.authFailure 401, ⟨cache', bucket₁, creds₂⟩, rest₁, 1, [hdr₁]⟩
            | (some tok₂, creds₂) =>
              let hdr₂ := authHeaderFor tok₂.accessToken
              match bucket₁.tryAcquire (now : ℚ) with
              | (false, _) => none
              | (true, bucket₂) =>
                match rest₁ with
                | [] => none
                | .transportFailure cause :: rest₂ =>
                  some ⟨.networkFailure cause, ⟨cache', bucket₂, creds₂⟩, rest₂, 2, [hdr₁, hdr₂]⟩
                | .response r₂ :: rest₂ =>
                  if r₂.status = 401 then
                    some ⟨.authFailure 401, ⟨cache', bucket₂, creds₂.clearCredential⟩,
                      rest₂, 2, [hdr₁, hdr₂]⟩
                  else
                    some (finishResponse r₂ path ttl now cache' bucket₂ creds₂ rest₂ 2 [hdr₁, hdr₂])
          else
            some (finishResponse r₁ path ttl now cache' bucket₁ creds₁ rest₁ 1 [hdr₁])

/-- Modelled from the spec: `D2LApiClient` construction (src/api/client.ts is
not under src/): refuse a non-HTTPS base address with a configuration error,
synchronously — no element of the network script is consumed. The fresh
client has an empty cache and a full default bucket. -/
def D2LApiClient.construct (baseUrl : String) (creds : CredMgr) : Except String ClientState :=
  if "https://".toList.isPrefixOf baseUrl.toList then
    .ok ⟨[], specBucket, creds⟩
  else
    .error "HTTPS is required"

/-- Numeric tag for the origin field inside a serialized credential blob. -/
def sourceTag : TokenSource → Int
  | .browser => 0
  | .cookie => 1

/-- Inverse of `sourceTag`. -/
def tagSource (i : Int) : Option TokenSource :=
  if i = 0 then some .browser
  else if i = 1 then some .cookie
  else none

/-- Modelled from the spec: the plaintext serialization of a credential
record inside the session store's envelope (src/auth/session-store.ts is not
under src/): origin tag, the two timestamps, then the secret's character
codes. -/
def serializeToken (t : TokenData) : List Int :=
  sourceTag t.source :: t.capturedAt :: t.expiresAt ::
    t.accessToken.toList.map (fun c => (c.toNat : Int))

/-- Inverse of `serializeToken`: absent on a malformed blob. -/
def deserializeToken : List Int → Option TokenData
  | tag :: cap :: exp :: rest =>
    match tagSource tag with
    | some src => some ⟨String.mk (rest.map (fun i => Char.ofNat i.toNat)), cap, exp, src⟩
    | none => none
  | _ => none

/-- Modelled from the spec: the AES-256-GCM authenticated-encryption envelope
of the session store, abstracted to an invertible key-dependent transformation
of the serialized bytes (the envelope format is opaque; only exact round-trip
of the record is contracted). -/
def encryptBlob (key : Int) (blob : List Int) : List Int :=
  blob.map (· + key)

/-- Inverse transformation of `encryptBlob` under the same key. -/
def decryptBlob (key : Int) (blob : List Int) : List Int :=
  blob.map (· - key)

/-- Modelled from the spec: `SessionStore.save` — write the encrypted,
authenticated blob of the record to the fixed on-disk location. -/
def SessionStore.save (key : Int) (t : TokenData) : List Int :=
  encryptBlob key (serializeToken t)

/-- Modelled from the spec: `SessionStore.load` — absent file or a blob that
does not decode both yield absent. -/
def SessionStore.load (key : Int) (disk : Option (List Int)) : Option TokenData :=
  match disk with
  | none => none
  | some blob => deserializeToken (decryptBlob key blob)

/-- In-memory slot of one `TokenManager` instance; a freshly constructed
manager starts with an empty slot. -/
structure TokenManagerState where
  memory : Option TokenData
deriving DecidableEq, Repr

/-- Modelled from the spec: `TokenManager.setToken` — replace the in-memory
record and persist it via the session store. Returns the manager's state and
the on-disk blob. -/
def TokenManager.setToken (key : Int) (t : TokenData) : TokenManagerState × List Int :=
  (⟨some t⟩, SessionStore.save key t)

/-- The fall-back path of `getToken`: load from the store; if found and valid,
cache it in memory and return it; otherwise absent. -/
def TokenManager.loadFromStore (key : Int) (st : TokenManagerState)
    (disk : Option (List Int)) (now : Int) : Option TokenData × TokenManagerState :=
  match SessionStore.load key disk with
  | some t => if TokenManager.isValid now t then (some t, ⟨some t⟩) else (none, st)
  | none => (none, st)

/-- Modelled from the spec: `TokenManager.getToken` — return the in-memory
record when present and valid, else fall back to the session store. -/
def TokenManager.getToken (key : Int) (st : TokenManagerState)
    (disk : Option (List Int)) (now : Int) : Option TokenData × TokenManagerState :=
  match st.memory with
  | some m =>
    if TokenManager.isValid now m then (some m, st)
    else TokenManager.loadFromStore key st disk now
  | none => TokenManager.loadFromStore key st disk now

/-- The process environment variables `loadConfig` reads, each possibly
unset. -/
structure Env where
  d2lBaseUrl : Option String
  d2lSessionDir : Option String
  d2lTokenTtl : Option String
  d2lHeadless : Option String
  d2lUsername : Option String
  d2lPassword : Option String
  mfaTotpSecret : Option String
  d2lIncludeCourses : Option String
  d2lExcludeCourses : Option String
  d2lActiveOnly : Option String
deriving DecidableEq, Repr

/-- JavaScript string truthiness: every string except the empty one. -/
def strTruthy (s : String) : Bool := s ≠ ""

/-- Truthiness of a possibly-absent string: `undefined` and `""` are falsy. -/
def optTruthy (o : Option String) : Bool :=
  match o with
  | some s => strTruthy s
  | none => false

/-- JavaScript `a || d` for a possibly-absent string against a literal
default. -/
def jsOrString (a : Option String) (d : String) : String :=
  match a with
  | some s => if strTruthy s then s else d
  | none => d

/-- JavaScript `a || b` where both operands are possibly-absent strings. -/
def jsOrOpt (a b : Option String) : Option String :=
  if optTruthy a then a else b

/-- JavaScript `parseInt(s, 10)`: skip leading whitespace, optional sign,
then leading decimal digits; `NaN` (here `none`) when no digit follows. -/
def jsParseInt (s : String) : Option Int :=
  let cs := s.toList.dropWhile (fun c => c == ' ' || c == '\t' || c == '\n' || c == '\r')
  let signAndRest : Int × List Char :=
    match cs with
    | '-' :: rest => (-1, rest)
    | '+' :: rest => (1, rest)
    | _ => (1, cs)
  let digits := signAndRest.2.takeWhile (fun c => c.isDigit)
  if digits.isEmpty then none
  else some (signAndRest.1 * digits.foldl (fun acc c => acc * 10 + ((c.toNat : Int) - 48)) 0)

/-- Minimal model of Node's `path.join(a, b)` as used here: concatenate with
exactly one separator. -/
def pathJoin (a b : String) : String :=
  if "/".toList.isPrefixOf b.toList then a ++ b else a ++ "/" ++ b

/-- `expandTilde` from src/utils/config.ts: a path starting with `~` has the
tilde replaced by the home directory. -/
def expandTilde (home : String) (filePath : String) : String :=
  if "~".toList.isPrefixOf filePath.toList then pathJoin home (String.mk (filePath.toList.drop 1))
  else filePath

/-- The configuration fields produced by the env-only `loadConfig` and shared
by both versions. -/
structure AppConfigBase where
  baseUrl : String
  sessionDir : String
  tokenTtl : Option Int
  headless : Bool
  username : Option String
  password : Option String
  totpSecret : Option String
deriving DecidableEq, Repr

/-- Course-filter settings added by the config-store-aware `loadConfig`. -/
structure CourseFilter where
  includeCourseIds : Option (List Int)
  excludeCourseIds : Option (List Int)
  activeOnly : Bool
deriving DecidableEq, Repr

/-- Result of the config-store-aware `loadConfig`: the shared fields plus the
course filter. -/
structure AppConfigFull extends AppConfigBase where
  courseFilter : CourseFilter
deriving DecidableEq, Repr

/-- Contents of `~/.brightspace-mcp/config.json`, every field optional. -/
structure ConfigStoreData where
  baseUrl : Option String
  username : Option String
  password : Option String
  mfaTotpSecret : Option String
  sessionDir : Option String
  headless : Option Bool
  tokenTtl : Option Int
  includeCourses : Option (List Int)
  excludeCourses : Option (List Int)
  activeOnly : Option Bool
deriving DecidableEq, Repr

/-- The env-only `loadConfig` (src/utils/config.ts, first version): every
field resolved from the environment with fixed defaults. `tokenTtl` is
`parseInt(D2L_TOKEN_TTL || "3600", 10)`, `headless` is
`D2L_HEADLESS === "true"`. -/
def loadConfigEnvOnly (home : String) (env : Env) : AppConfigBase :=
  { baseUrl := jsOrString env.d2lBaseUrl "https://purdue.brightspace.com"
    sessionDir :=
      if optTruthy env.d2lSessionDir then expandTilde home (env.d2lSessionDir.getD "")
      else pathJoin home ".d2l-session"
    tokenTtl := jsParseInt (jsOrString env.d2lTokenTtl "3600")
    headless := env.d2lHeadless == some "true"
    username := env.d2lUsername
    password := env.d2lPassword
    totpSecret := env.mfaTotpSecret }

/-- `D2L_INCLUDE_COURSES`-style parsing: split on commas, trim, parse each
number, drop the non-numeric pieces. -/
def parseCourseIdCsv (s : String) : List Int :=
  ((s.split (· == ',')).map (fun piece => jsParseInt piece.trim)).filterMap id

/-- The config-store-aware `loadConfig` (src/utils/config.ts, second
version), with the loaded store passed explicitly: `store = none` is exactly
the `configStoreExists()`-false path, where `loadConfigStore` is never
called. Every field resolves env over store over default. -/
def loadConfigWithStore (home : String) (env : Env) (store : Option ConfigStoreData) : AppConfigFull :=
  let storeSessionDir := store.bind (·.sessionDir)
  let sessionDir :=
    if optTruthy env.d2lSessionDir then expandTilde home (env.d2lSessionDir.getD "")
    else if optTruthy storeSessionDir then expandTilde home (storeSessionDir.getD "")
    else pathJoin home ".d2l-session"
  let headless :=
    match env.d2lHeadless with
    | some s => s == "true"
    | none => (store.bind (·.headless)).getD false
  let tokenTtl :=
    if optTruthy env.d2lTokenTtl then jsParseInt (env.d2lTokenTtl.getD "")
    else some ((store.bind (·.tokenTtl)).getD 3600)
  let includeCourseIds :=
    if optTruthy env.d2lIncludeCourses then some (parseCourseIdCsv (env.d2lIncludeCourses.getD ""))
    else store.bind (·.includeCourses)
  let excludeCourseIds :=
    if optTruthy env.d2lExcludeCourses then some (parseCourseIdCsv (env.d2lExcludeCourses.getD ""))
    else store.bind (·.excludeCourses)
  let activeOnly :=
    match env.d2lActiveOnly with
    | some s => s != "false"
    | none => (store.bind (·.activeOnly)).getD true
  { baseUrl := jsOrString (jsOrOpt env.d2lBaseUrl (store.bind (·.baseUrl))) "https://purdue.brightspace.com"
    sessionDir
    tokenTtl
    headless
    username := jsOrOpt env.d2lUsername (store.bind (·.username))
    password := jsOrOpt env.d2lPassword (store.bind (·.password))
    totpSecret := jsOrOpt env.mfaTotpSecret (store.bind (·.mfaTotpSecret))
    courseFilter := ⟨includeCourseIds, excludeCourseIds, activeOnly⟩ }

/-- Env-only configuration counterexample input: every variable unset except
`D2L_USERNAME`, which is set to the empty string. -/
def envEmptyUser : Env := ⟨none, none, none, none, some "", none, none, none, none, none⟩

/-- A concrete valid bearer credential used in the request-lifecycle
scenarios. -/
def tokenA : TokenData := ⟨"token-aaaa", 0, 7200000, .browser⟩

/-- A second, different bearer credential: what a concurrently completed
re-authentication leaves for the retry to pick up. -/
def tokenB : TokenData := ⟨"token-bbbb", 0, 7200000, .browser⟩

/-- C2: for every credential record and observation time, `isValid` holds
exactly when the record expires more than 5 minutes later; a record expiring
in 10 minutes is valid, one expiring in 4 minutes or already expired is
invalid. -/
theorem isValid_iff_five_minute_buffer :
    (∀ (now : Int) (c : TokenData),
       TokenManager.isValid now c = true ↔ c.expiresAt - now > 5 * 60 * 1000) ∧
    (∀ (now cap : Int) (tok : String) (src : TokenSource),
       TokenManager.isValid now ⟨tok, cap, now + 10 * 60 * 1000, src⟩ = true ∧
       TokenManager.isValid now ⟨tok, cap, now + 4 * 60 * 1000, src⟩ = false ∧
       TokenManager.isValid now ⟨tok, cap, now - 3600000, src⟩ = false) := by
  refine ⟨fun now c => ?_, fun now cap tok src => ⟨?_, ?_, ?_⟩⟩ <;>
    simp [TokenManager.isValid, refreshBufferMs]

/-- C9: with discovered versions lp = "1.56" and le = "1.91", the three path
builders produce exactly the specified versioned paths. -/
theorem path_builders_exact :
    D2LApiClient.lp ⟨"1.56", "1.91"⟩ "/users/whoami" = "/d2l/api/lp/1.56/users/whoami" ∧
    D2LApiClient.le ⟨"1.56", "1.91"⟩ 123456 "/content/root/" = "/d2l/api/le/1.91/123456/content/root/" ∧
    D2LApiClient.leGlobal ⟨"1.56", "1.91"⟩ "/enrollments/myenrollments/" =
      "/d2l/api/le/1.91/enrollments/myenrollments/" :=
  ⟨rfl, rfl, rfl⟩

/-- C6: construction succeeds exactly for base URLs with the https scheme; a
non-HTTPS base URL yields the configuration error synchronously (the
constructor consumes no network script at all), an https one does not. -/
theorem https_required_at_construction :
    (∀ (u : String) (m : CredMgr),
       (D2LApiClient.construct u m).isOk = true ↔
         "https://".toList.isPrefixOf u.toList = true) ∧
    (∀ m : CredMgr,
       D2LApiClient.construct "http://purdue.brightspace.com" m = .error "HTTPS is required") ∧
    (∀ m : CredMgr,
       D2LApiClient.construct "https://purdue.brightspace.com" m = .ok ⟨[], specBucket, m⟩) := by
  refine ⟨fun u m => ?_, fun m => ?_, fun m => ?_⟩
  · unfold D2LApiClient.construct
    split <;> rename_i h
    · exact iff_of_true rfl h
    · exact iff_of_false (by simp [Except.isOk, Except.toBool]) h
  · have h : ("https://".toList.isPrefixOf "http://purdue.brightspace.com".toList) = false := by
      decide
    simp [D2LApiClient.construct, h]
  · have h : ("https://".toList.isPrefixOf "https://purdue.brightspace.com".toList) = true := by
      decide
    simp [D2LApiClient.construct, h]

/-- C7: from a full bucket with capacity 10 and refill 3/s, ten immediate
acquisitions all succeed, the eleventh immediate acquisition is denied, and
one further acquisition succeeds after any wait of at least 1/3 second; every
attempt replenishes `elapsed × refillPerSecond` capped at capacity and
updates `lastRefillAt` before granting or denying. -/
theorem token_bucket_burst_deny_refill :
    TokenBucket.acquireSeq specBucket [0, 0, 0, 0, 0, 0, 0, 0, 0, 0] =
      ([true, true, true, true, true, true, true, true, true, true], ⟨0, 0, 10, 3⟩) ∧
    (⟨0, 0, 10, 3⟩ : TokenBucket).tryAcquire 0 = (false, ⟨0, 0, 10, 3⟩) ∧
    (∀ t : ℚ, 1 / 3 ≤ t → ((⟨0, 0, 10, 3⟩ : TokenBucket).tryAcquire t).1 = true) ∧
    (∀ (b : TokenBucket) (now : ℚ),
       (b.refill now).availableTokens =
         min (b.availableTokens + (now - b.lastRefillAt) * b.refillPerSecond) b.capacity ∧
       (b.refill now).lastRefillAt = now ∧
       (b.tryAcquire now).2.lastRefillAt = now ∧
       ((b.tryAcquire now).1 = true ↔ 1 ≤ (b.refill now).availableTokens)) := by
  refine ⟨?_, ?_, fun t ht => ?_, fun b now => ⟨rfl, rfl, ?_, ?_⟩⟩
  · norm_num [TokenBucket.acquireSeq, TokenBucket.tryAcquire, TokenBucket.refill,
      specBucket, min_def]
  · norm_num [TokenBucket.tryAcquire, TokenBucket.refill, min_def]
  · have h1 : (1 : ℚ) ≤ min ((0 : ℚ) + (t - 0) * 3) 10 := by
      rcases min_cases ((0 : ℚ) + (t - 0) * 3) 10 with ⟨he, _⟩ | ⟨he, _⟩ <;> rw [he] <;> linarith
    simp only [TokenBucket.tryAcquire, TokenBucket.refill]
    rw [if_pos h1]
  · simp only [TokenBucket.tryAcquire]
    split <;> rfl
  · simp only [TokenBucket.tryAcquire]
    split <;> rename_i h <;> simp [h]

/-- C7 witness: after the burst and the denied attempt, waiting 1 second
(which is at least 1/3 s) makes one further acquisition succeed. -/
theorem token_bucket_burst_deny_refill_witness :
    (1 / 3 : ℚ) ≤ 1 ∧ ((⟨0, 0, 10, 3⟩ : TokenBucket).tryAcquire 1).1 = true :=
  ⟨by norm_num, token_bucket_burst_deny_refill.2.2.1 1 (by norm_num)⟩

/-- Helper: `finishResponse` reports exactly the attempt count it was given. -/
theorem finishResponse_networkCalls (r : HttpResponse) (path : String) (ttl : Option Int)
    (now : Int) (cache : List (String × CacheEntry)) (bucket : TokenBucket) (creds : CredMgr)
    (pending : List FetchOutcome) (calls : Nat) (sent : List AuthHeader) :
    (finishResponse r path ttl now cache bucket creds pending calls sent).networkCalls = calls := by
  unfold finishResponse
  split_ifs <;> rfl

/-- Helper: without a TTL option `finishResponse` leaves the cache exactly as
given. -/
theorem finishResponse_cache_of_ttl_none (r : HttpResponse) (path : String)
    (now : Int) (cache : List (String × CacheEntry)) (bucket : TokenBucket) (creds : CredMgr)
    (pending : List FetchOutcome) (calls : Nat) (sent : List AuthHeader) :
    (finishResponse r path none now cache bucket creds pending calls sent).state.cache = cache := by
  unfold finishResponse
  split_ifs <;> rfl

/-- C5: a first-response 429 resolves the call to a rate-limit error exposing
exactly the parsed `Retry-After` seconds (absent header gives an absent
hint), with exactly one network attempt — no automatic retry — and an
untouched cache. -/
theorem get_429_rate_limit_no_retry
    (cache : List (String × CacheEntry)) (b b₁ : TokenBucket) (tok : TokenData)
    (rs : List (Option TokenData)) (ra : Option Nat) (body path : String)
    (rest : List FetchOutcome) (now : Int)
    (hb : b.tryAcquire (now : ℚ) = (true, b₁)) :
    D2LApiClient.get ⟨cache, b, ⟨some tok :: rs, false⟩⟩
        (.response ⟨429, ra, body⟩ :: rest) path none now =
      some ⟨.rateLimited ra, ⟨cache, b₁, ⟨rs, false⟩⟩, rest, 1,
        [authHeaderFor tok.accessToken]⟩ := by
  unfold D2LApiClient.get
  rw [hb]
  simp [CredMgr.getCredential, finishResponse]

/-- C5 witness: from a full default bucket, a 429 carrying `Retry-After: 60`
yields a rate-limit error exposing 60 seconds, and one with no `Retry-After`
header yields an absent hint; each with a single network attempt. -/
theorem get_429_rate_limit_no_retry_witness :
    D2LApiClient.get ⟨[], specBucket, ⟨[some tokenA], false⟩⟩
        [.response ⟨429, some 60, "Rate limited"⟩] "/d2l/api/lp/1.56/users/whoami" none 0 =
      some ⟨.rateLimited (some 60), ⟨[], ⟨9, 0, 10, 3⟩, ⟨[], false⟩⟩, [], 1,
        [authHeaderFor tokenA.accessToken]⟩ ∧
    D2LApiClient.get ⟨[], specBucket, ⟨[some tokenA], false⟩⟩
        [.response ⟨429, none, "Rate limited"⟩] "/d2l/api/lp/1.56/users/whoami" none 0 =
      some ⟨.rateLimited none, ⟨[], ⟨9, 0, 10, 3⟩, ⟨[], false⟩⟩, [], 1,
        [authHeaderFor tokenA.accessToken]⟩ := by
  have hb : specBucket.tryAcquire (((0 : Int)) : ℚ) = (true, ⟨9, 0, 10, 3⟩) := by
    norm_num [TokenBucket.tryAcquire, TokenBucket.refill, specBucket, min_def]
  exact ⟨get_429_rate_limit_no_retry [] specBucket ⟨9, 0, 10, 3⟩ tokenA [] (some 60)
      "Rate limited" "/d2l/api/lp/1.56/users/whoami" [] 0 hb,
    get_429_rate_limit_no_retry [] specBucket ⟨9, 0, 10, 3⟩ tokenA [] none
      "Rate limited" "/d2l/api/lp/1.56/users/whoami" [] 0 hb⟩

/-- C3: a `get` with a TTL option that finds a non-expired cache entry
returns it with no network attempt and no rate-limit consumption; a value
stored with TTL `t` is a hit at any time before `now + t` and a miss (the
expired entry treated as absent) from `now + t` on; concretely, a fetched
response cached with TTL 60000 at time 0 is served from cache at time 30000
with the whole client state unchanged, and at time 60001 the call goes back
to the network. -/
theorem get_cache_hit_and_lazy_expiry :
    (∀ (st : ClientState) (script : List FetchOutcome) (path v : String)
       (cache' : List (String × CacheEntry)) (t now : Int),
       TTLCache.get st.cache path now = (some v, cache') →
       D2LApiClient.get st script path (some t) now =
         some ⟨.success v, { st with cache := cache' }, script, 0, []⟩) ∧
    (∀ (cache : List (String × CacheEntry)) (path v : String) (t now now' : Int),
       now' < now + t →
       TTLCache.get (TTLCache.set cache path v t now) path now' =
         (some v, TTLCache.set cache path v t now)) ∧
    (∀ (cache : List (String × CacheEntry)) (path v : String) (t now now' : Int),
       now + t ≤ now' →
       (TTLCache.get (TTLCache.set cache path v t now) path now').1 = none) ∧
    (∀ b b₁ : TokenBucket, b.tryAcquire (((0 : Int)) : ℚ) = (true, b₁) →
       D2LApiClient.get ⟨[], b, ⟨[some tokenA], false⟩⟩
           [.response ⟨200, none, "payloadA"⟩] "/p" (some 60000) 0 =
         some ⟨.success "payloadA", ⟨[("/p", ⟨"payloadA", 60000⟩)], b₁, ⟨[], false⟩⟩, [], 1,
           [authHeaderFor tokenA.accessToken]⟩) ∧
    (∀ (b : TokenBucket) (script : List FetchOutcome),
       D2LApiClient.get ⟨[("/p", ⟨"payloadA", 60000⟩)], b, ⟨[], false⟩⟩ script "/p"
           (some 60000) 30000 =
         some ⟨.success "payloadA", ⟨[("/p", ⟨"payloadA", 60000⟩)], b, ⟨[], false⟩⟩,
           script, 0, []⟩) ∧
    (∀ b b₁ : TokenBucket, b.tryAcquire (((60001 : Int)) : ℚ) = (true, b₁) →
       D2LApiClient.get ⟨[("/p", ⟨"payloadA", 60000⟩)], b, ⟨[some tokenA], false⟩⟩
           [.response ⟨200, none, "payloadB"⟩] "/p" (some 60000) 60001 =
         some ⟨.success "payloadB", ⟨[("/p", ⟨"payloadB", 120001⟩)], b₁, ⟨[], false⟩⟩, [], 1,
           [authHeaderFor tokenA.accessToken]⟩) := by
  refine ⟨fun st script path v cache' t now hc => ?_, fun cache path v t now now' h => ?_,
    fun cache path v t now now' h => ?_, fun b b₁ hb => ?_, fun b script => ?_,
    fun b b₁ hb => ?_⟩
  · unfold D2LApiClient.get
    rw [hc]
  · simp [TTLCache.get, TTLCache.set, h]
  · simp [TTLCache.get, TTLCache.set, not_lt.2 h]
  · unfold D2LApiClient.get
    rw [show TTLCache.get ([] : List (String × CacheEntry)) "/p" 0 = (none, []) from rfl]
    rw [hb]
    simp [CredMgr.getCredential, finishResponse, TTLCache.set]
  · unfold D2LApiClient.get
    rw [show TTLCache.get [("/p", (⟨"payloadA", 60000⟩ : CacheEntry))] "/p" 30000 =
      (some "payloadA", [("/p", ⟨"payloadA", 60000⟩)]) from by norm_num [TTLCache.get]]
  · unfold D2LApiClient.get
    rw [show TTLCache.get [("/p", (⟨"payloadA", 60000⟩ : CacheEntry))] "/p" 60001 =
      (none, []) from by norm_num [TTLCache.get]]
    rw [hb]
    simp [CredMgr.getCredential, finishResponse, TTLCache.set]

/-- C3 witness: the store/hit/expiry scenario run from the full default
bucket, plus the general hit and miss parts applied to a concrete one-entry
cache. -/
theorem get_cache_hit_and_lazy_expiry_witness :
    D2LApiClient.get ⟨[("/k", ⟨"w", 5⟩)], specBucket, ⟨[], false⟩⟩ [] "/k" (some 99) 4 =
      some ⟨.success "w", ⟨[("/k", ⟨"w", 5⟩)], specBucket, ⟨[], false⟩⟩, [], 0, []⟩ ∧
    TTLCache.get (TTLCache.set [] "/k" "w" 60000 0) "/k" 30000 =
      (some "w", TTLCache.set [] "/k" "w" 60000 0) ∧
    (TTLCache.get (TTLCache.set [] "/k" "w" 60000 0) "/k" 60000).1 = none ∧
    D2LApiClient.get ⟨[], specBucket, ⟨[some tokenA], false⟩⟩
        [.response ⟨200, none, "payloadA"⟩] "/p" (some 60000) 0 =
      some ⟨.success "payloadA", ⟨[("/p", ⟨"payloadA", 60000⟩)], ⟨9, 0, 10, 3⟩, ⟨[], false⟩⟩,
        [], 1, [authHeaderFor tokenA.accessToken]⟩ ∧
    D2LApiClient.get ⟨[("/p", ⟨"payloadA", 60000⟩)], ⟨9, 0, 10, 3⟩, ⟨[some tokenA], false⟩⟩
        [.response ⟨200, none, "payloadB"⟩] "/p" (some 60000) 60001 =
      some ⟨.success "payloadB", ⟨[("/p", ⟨"payloadB", 120001⟩)], ⟨9, 60001, 10, 3⟩, ⟨[], false⟩⟩,
        [], 1, [authHeaderFor tokenA.accessToken]⟩ := by
  have hb0 : specBucket.tryAcquire (((0 : Int)) : ℚ) = (true, ⟨9, 0, 10, 3⟩) := by
    norm_num [TokenBucket.tryAcquire, TokenBucket.refill, specBucket, min_def]
  have hb1 : (⟨9, 0, 10, 3⟩ : TokenBucket).tryAcquire (((60001 : Int)) : ℚ) =
      (true, ⟨9, 60001, 10, 3⟩) := by
    norm_num [TokenBucket.tryAcquire, TokenBucket.refill, min_def]
  refine ⟨?_, get_cache_hit_and_lazy_expiry.2.1 [] "/k" "w" 60000 0 30000 (by norm_num),
    get_cache_hit_and_lazy_expiry.2.2.1 [] "/k" "w" 60000 0 60000 (by norm_num),
    get_cache_hit_and_lazy_expiry.2.2.2.1 specBucket ⟨9, 0, 10, 3⟩ hb0,
    get_cache_hit_and_lazy_expiry.2.2.2.2.2 ⟨9, 0, 10, 3⟩ ⟨9, 60001, 10, 3⟩ hb1⟩
  exact get_cache_hit_and_lazy_expiry.1 ⟨[("/k", ⟨"w", 5⟩)], specBucket, ⟨[], false⟩⟩ [] "/k" "w"
    [("/k", ⟨"w", 5⟩)] 99 4 (by norm_num [TTLCache.get])

/-- C4: a `get` with no TTL option never writes to the response cache — the
resulting cache is exactly the one the call started with — and two sequential
no-TTL `get`s of the same path each perform their own network fetch and
return their own independent response. -/
theorem get_no_ttl_never_caches :
    (∀ (st : ClientState) (script : List FetchOutcome) (path : String) (now : Int)
       (res : GetResult),
       D2LApiClient.get st script path none now = some res → res.state.cache = st.cache) ∧
    (∀ b b₁ b₂ : TokenBucket,
       b.tryAcquire (((0 : Int)) : ℚ) = (true, b₁) →
       b₁.tryAcquire (((0 : Int)) : ℚ) = (true, b₂) →
       D2LApiClient.get ⟨[], b, ⟨[some tokenA, some tokenA], false⟩⟩
           [.response ⟨200, none, "responseOne"⟩, .response ⟨200, none, "responseTwo"⟩]
           "/p" none 0 =
         some ⟨.success "responseOne", ⟨[], b₁, ⟨[some tokenA], false⟩⟩,
           [.response ⟨200, none, "responseTwo"⟩], 1, [authHeaderFor tokenA.accessToken]⟩ ∧
       D2LApiClient.get ⟨[], b₁, ⟨[some tokenA], false⟩⟩
           [.response ⟨200, none, "responseTwo"⟩] "/p" none 0 =
         some ⟨.success "responseTwo", ⟨[], b₂, ⟨[], false⟩⟩, [], 1,
           [authHeaderFor tokenA.accessToken]⟩) := by
  refine ⟨fun st script path now res h => ?_, fun b b₁ b₂ hb1 hb2 => ⟨?_, ?_⟩⟩
  · unfold D2LApiClient.get at h
    dsimp only at h
    repeat' split at h
    all_goals first
      | exact Option.noConfusion h
      | (injection h with h2; subst h2; first | rfl | apply finishResponse_cache_of_ttl_none)
  · unfold D2LApiClient.get
    rw [hb1]
    simp [CredMgr.getCredential, finishResponse]
  · unfold D2LApiClient.get
    rw [hb2]
    simp [CredMgr.getCredential, finishResponse]

/-- C4 witness: the two sequential no-TTL calls from a full default bucket,
and the no-cache-write part applied to the first call's result. -/
theorem get_no_ttl_never_caches_witness :
    D2LApiClient.get ⟨[], specBucket, ⟨[some tokenA, some tokenA], false⟩⟩
        [.response ⟨200, none, "responseOne"⟩, .response ⟨200, none, "responseTwo"⟩]
        "/p" none 0 =
      some ⟨.success "responseOne", ⟨[], ⟨9, 0, 10, 3⟩, ⟨[some tokenA], false⟩⟩,
        [.response ⟨200, none, "responseTwo"⟩], 1, [authHeaderFor tokenA.accessToken]⟩ ∧
    (⟨.success "responseOne", ⟨[], ⟨9, 0, 10, 3⟩, ⟨[some tokenA], false⟩⟩,
        [.response ⟨200, none, "responseTwo"⟩], 1,
        [authHeaderFor tokenA.accessToken]⟩ : GetResult).state.cache = [] ∧
    D2LApiClient.get ⟨[], ⟨9, 0, 10, 3⟩, ⟨[some tokenA], false⟩⟩
        [.response ⟨200, none, "responseTwo"⟩] "/p" none 0 =
      some ⟨.success "responseTwo", ⟨[], ⟨8, 0, 10, 3⟩, ⟨[], false⟩⟩, [], 1,
        [authHeaderFor tokenA.accessToken]⟩ := by
  have hb1 : specBucket.tryAcquire (((0 : Int)) : ℚ) = (true, ⟨9, 0, 10, 3⟩) := by
    norm_num [TokenBucket.tryAcquire, TokenBucket.refill, specBucket, min_def]
  have hb2 : (⟨9, 0, 10, 3⟩ : TokenBucket).tryAcquire (((0 : Int)) : ℚ) =
      (true, ⟨8, 0, 10, 3⟩) := by
    norm_num [TokenBucket.tryAcquire, TokenBucket.refill, min_def]
  obtain ⟨h1, h2⟩ := get_no_ttl_never_caches.2 specBucket ⟨9, 0, 10, 3⟩ ⟨8, 0, 10, 3⟩ hb1 hb2
  exact ⟨h1, get_no_ttl_never_caches.1 _ _ _ _ _ h1, h2⟩

/-- C1: a first-attempt 401 triggers exactly one automatic retry, which
re-reads the credential from the manager and repeats the request once: if the
retry succeeds the call returns that success after exactly two network
attempts, the second carrying the re-read credential's header; if the retry
is also a 401 the credential is cleared (every subsequent read is absent) and
the call fails with an authentication-kind error of status 401; a first
response of any other status is never retried (at most one network
attempt). -/
theorem get_401_single_retry :
    (∀ (cache : List (String × CacheEntry)) (b b₁ b₂ : TokenBucket)
       (stale fresh : TokenData) (path body : String) (now : Int) (rest : List FetchOutcome),
       b.tryAcquire (now : ℚ) = (true, b₁) → b₁.tryAcquire (now : ℚ) = (true, b₂) →
       D2LApiClient.get ⟨cache, b, ⟨[some stale, some fresh], false⟩⟩
           (.response ⟨401, none, "Unauthorized"⟩ :: .response ⟨200, none, body⟩ :: rest)
           path none now =
         some ⟨.success body, ⟨cache, b₂, ⟨[], false⟩⟩, rest, 2,
           [authHeaderFor stale.accessToken, authHeaderFor fresh.accessToken]⟩) ∧
    (∀ (cache : List (String × CacheEntry)) (b b₁ b₂ : TokenBucket)
       (stale fresh : TokenData) (path : String) (now : Int) (rest : List FetchOutcome),
       b.tryAcquire (now : ℚ) = (true, b₁) → b₁.tryAcquire (now : ℚ) = (true, b₂) →
       D2LApiClient.get ⟨cache, b, ⟨[some stale, some fresh], false⟩⟩
           (.response ⟨401, none, "Unauthorized"⟩ :: .response ⟨401, none, "Unauthorized"⟩ :: rest)
           path none now =
         some ⟨.authFailure 401, ⟨cache, b₂, ⟨[], true⟩⟩, rest, 2,
           [authHeaderFor stale.accessToken, authHeaderFor fresh.accessToken]⟩) ∧
    (∀ rs : List (Option TokenData), (CredMgr.getCredential ⟨rs, true⟩).1 = none) ∧
    (∀ (st : ClientState) (path : String) (ttl : Option Int) (now : Int)
       (r : HttpResponse) (rest : List FetchOutcome) (res : GetResult),
       r.status ≠ 401 →
       D2LApiClient.get st (.response r :: rest) path ttl now = some res →
       res.networkCalls ≤ 1) := by
  refine ⟨fun cache b b₁ b₂ stale fresh path body now rest hb1 hb2 => ?_,
    fun cache b b₁ b₂ stale fresh path now rest hb1 hb2 => ?_,
    fun rs => ?_, fun st path ttl now r rest res h401 h => ?_⟩
  · unfold D2LApiClient.get
    rw [hb1]
    simp [CredMgr.getCredential, hb2, finishResponse]
  · unfold D2LApiClient.get
    rw [hb1]
    simp [CredMgr.getCredential, CredMgr.clearCredential, hb2]
  · simp [CredMgr.getCredential]
  · unfold D2LApiClient.get at h
    dsimp only at h
    simp only [if_neg h401] at h
    repeat' split at h
    all_goals first
      | exact Option.noConfusion h
      | (injection h with h2; subst h2;
         first
           | exact Nat.le_refl 1
           | exact Nat.zero_le 1
           | (rw [finishResponse_networkCalls]))

/-- C1 witness: the retry-success and double-401 scenarios run from a full
default bucket with a stale and a fresh credential, the cleared manager's
next read, and a 500 first response resolving with a single attempt. -/
theorem get_401_single_retry_witness :
    D2LApiClient.get ⟨[], specBucket, ⟨[some tokenA, some tokenB], false⟩⟩
        [.response ⟨401, none, "Unauthorized"⟩, .response ⟨200, none, "fine"⟩]
        "/d2l/api/lp/1.56/users/whoami" none 0 =
      some ⟨.success "fine", ⟨[], ⟨8, 0, 10, 3⟩, ⟨[], false⟩⟩, [], 2,
        [authHeaderFor tokenA.accessToken, authHeaderFor tokenB.accessToken]⟩ ∧
    D2LApiClient.get ⟨[], specBucket, ⟨[some tokenA, some tokenB], false⟩⟩
        [.response ⟨401, none, "Unauthorized"⟩, .response ⟨401, none, "Unauthorized"⟩]
        "/d2l/api/lp/1.56/users/whoami" none 0 =
      some ⟨.authFailure 401, ⟨[], ⟨8, 0, 10, 3⟩, ⟨[], true⟩⟩, [], 2,
        [authHeaderFor tokenA.accessToken, authHeaderFor tokenB.accessToken]⟩ ∧
    (CredMgr.getCredential ⟨[], true⟩).1 = none ∧
    (⟨.apiFailure 500 "oops", ⟨[], ⟨9, 0, 10, 3⟩, ⟨[], false⟩⟩, [], 1,
      [authHeaderFor tokenA.accessToken]⟩ : GetResult).networkCalls ≤ 1 := by
  have hb1 : specBucket.tryAcquire (((0 : Int)) : ℚ) = (true, ⟨9, 0, 10, 3⟩) := by
    norm_num [TokenBucket.tryAcquire, TokenBucket.refill, specBucket, min_def]
  have hb2 : (⟨9, 0, 10, 3⟩ : TokenBucket).tryAcquire (((0 : Int)) : ℚ) =
      (true, ⟨8, 0, 10, 3⟩) := by
    norm_num [TokenBucket.tryAcquire, TokenBucket.refill, min_def]
  have h500 : D2LApiClient.get ⟨[], specBucket, ⟨[some tokenA], false⟩⟩
      [.response ⟨500, none, "oops"⟩] "/d2l/api/lp/1.56/users/whoami" none 0 =
      some ⟨.apiFailure 500 "oops", ⟨[], ⟨9, 0, 10, 3⟩, ⟨[], false⟩⟩, [], 1,
        [authHeaderFor tokenA.accessToken]⟩ := by
    unfold D2LApiClient.get
    rw [hb1]
    simp [CredMgr.getCredential, finishResponse]
  exact ⟨get_401_single_retry.1 [] specBucket ⟨9, 0, 10, 3⟩ ⟨8, 0, 10, 3⟩ tokenA tokenB
      "/d2l/api/lp/1.56/users/whoami" "fine" 0 [] hb1 hb2,
    get_401_single_retry.2.1 [] specBucket ⟨9, 0, 10, 3⟩ ⟨8, 0, 10, 3⟩ tokenA tokenB
      "/d2l/api/lp/1.56/users/whoami" 0 [] hb1 hb2,
    get_401_single_retry.2.2.1 [],
    get_401_single_retry.2.2.2 ⟨[], specBucket, ⟨[some tokenA], false⟩⟩
      "/d2l/api/lp/1.56/users/whoami" none 0 ⟨500, none, "oops"⟩ [] _ (by norm_num) h500⟩

/-- Helper: decryption under the same key inverts encryption. -/
theorem decrypt_encrypt (key : Int) (blob : List Int) :
    decryptBlob key (encryptBlob key blob) = blob := by
  unfold decryptBlob encryptBlob
  rw [List.map_map]
  have hc : ((fun x => x - key) ∘ fun x => x + key) = (id : Int → Int) := by
    funext x
    simp
  rw [hc, List.map_id]

/-- Helper: deserialization inverts serialization on every credential
record. -/
theorem deserialize_serialize (t : TokenData) :
    deserializeToken (serializeToken t) = some t := by
  obtain ⟨tok, cap, exp, src⟩ := t
  obtain ⟨data⟩ := tok
  have hc : ((fun i : Int => Char.ofNat i.toNat) ∘ fun c : Char => ((c.toNat : Int))) =
      (id : Char → Char) := by
    funext c
    simp [Char.ofNat_toNat]
  cases src <;>
    simp [serializeToken, deserializeToken, sourceTag, tagSource, List.map_map,
      String.toList, hc]

/-- C8: for every valid credential record, `setToken` on one manager followed
by `getToken` on a freshly constructed manager over the same on-disk store
returns exactly that record — the encrypted store round-trips it field for
field. -/
theorem setToken_durable_roundtrip (key : Int) (t : TokenData) (now : Int)
    (h : TokenManager.isValid now t = true) :
    (TokenManager.getToken key ⟨none⟩ (some (TokenManager.setToken key t).2) now).1 = some t := by
  simp [TokenManager.getToken, TokenManager.loadFromStore, SessionStore.load,
    TokenManager.setToken, SessionStore.save, decrypt_encrypt, deserialize_serialize, h]

/-- C8 witness: the round-trip at a concrete key and credential that is valid
at time 0. -/
theorem setToken_durable_roundtrip_witness :
    TokenManager.isValid 0 tokenA = true ∧
    (TokenManager.getToken 7 ⟨none⟩ (some (TokenManager.setToken 7 tokenA).2) 0).1 =
      some tokenA :=
  ⟨by decide, setToken_durable_roundtrip 7 tokenA 0 (by decide)⟩

/-- Helper: a `||` chain whose middle operand is absent collapses to the
two-operand form. -/
theorem jsOrString_jsOrOpt_none (a : Option String) (d : String) :
    jsOrString (jsOrOpt a none) d = jsOrString a d := by
  rcases a with _ | s
  · rfl
  · by_cases h : strTruthy s <;> simp [jsOrOpt, jsOrString, optTruthy, h]

/-- Helper: `a || undefined` is `a` itself whenever `a` is not the empty
string. -/
theorem jsOrOpt_none_of_ne_empty (a : Option String) (h : a ≠ some "") :
    jsOrOpt a none = a := by
  rcases a with _ | s
  · rfl
  · have hs : s ≠ "" := fun e => h (by rw [e])
    simp [jsOrOpt, optTruthy, strTruthy, hs]

/-- Helper: the store-absent `tokenTtl` resolution agrees with
`parseInt(D2L_TOKEN_TTL || "3600", 10)`. -/
theorem tokenTtl_branches (a : Option String) :
    (if optTruthy a then jsParseInt (a.getD "") else some 3600) =
      jsParseInt (jsOrString a "3600") := by
  have h36 : jsParseInt "3600" = some 3600 := by decide
  rcases a with _ | s
  · simp [optTruthy, jsOrString, h36]
  · by_cases h : strTruthy s <;> simp [optTruthy, jsOrString, h, h36]

/-- C10 counterexample: with no config store and `D2L_USERNAME` set to the
empty string, the env-only `loadConfig` reports the empty-string username
while the config-store-aware version reports an absent one, so the two
versions differ on a store-absent environment. -/
theorem loadConfig_store_absent_counterexample :
    (loadConfigEnvOnly "/home/user" envEmptyUser).username = some "" ∧
    (loadConfigWithStore "/home/user" envEmptyUser none).username = none ∧
    loadConfigEnvOnly "/home/user" envEmptyUser ≠
      (loadConfigWithStore "/home/user" envEmptyUser none).toAppConfigBase := by
  refine ⟨rfl, rfl, fun h => ?_⟩
  have hu := congrArg AppConfigBase.username h
  exact absurd hu (by decide)

/-- C10 amended: on every store-absent environment in which none of
`D2L_USERNAME`, `D2L_PASSWORD`, `MFA_TOTP_SECRET` is set to the empty string,
the config-store-aware `loadConfig` produces exactly the same `baseUrl`,
`sessionDir`, `tokenTtl`, `headless`, `username`, `password` and `totpSecret`
as the env-only version. -/
theorem loadConfig_store_absent_equiv (home : String) (env : Env)
    (hu : env.d2lUsername ≠ some "") (hp : env.d2lPassword ≠ some "")
    (hs : env.mfaTotpSecret ≠ some "") :
    (loadConfigWithStore home env none).toAppConfigBase = loadConfigEnvOnly home env := by
  obtain ⟨burl, sdir, ttl, hl, user, pass, totp, inc, exc, act⟩ := env
  unfold loadConfigWithStore loadConfigEnvOnly
  simp only [Option.none_bind, Option.getD_none]
  refine AppConfigBase.mk.injEq _ _ _ _ _ _ _ _ _ _ _ _ _ _ |>.mpr ?_
  refine ⟨jsOrString_jsOrOpt_none _ _, ?_, tokenTtl_branches _, ?_,
    jsOrOpt_none_of_ne_empty _ hu, jsOrOpt_none_of_ne_empty _ hp,
    jsOrOpt_none_of_ne_empty _ hs⟩
  · simp [optTruthy]
  · rcases hl with _ | s <;> rfl

/-- C10 amended witness: the two versions agree at a concrete store-absent
environment that sets a non-empty username and leaves the rest unset. -/
theorem loadConfig_store_absent_equiv_witness :
    ((none : Option String) ≠ some "") ∧ ((some "boiler" : Option String) ≠ some "") ∧
    (loadConfigWithStore "/home/user"
        ⟨none, none, none, none, some "boiler", none, none, none, none, none⟩
        none).toAppConfigBase =
      loadConfigEnvOnly "/home/user"
        ⟨none, none, none, none, some "boiler", none, none, none, none, none⟩ :=
  ⟨by decide, by decide,
    loadConfig_store_absent_equiv "/home/user"
      ⟨none, none, none, none, some "boiler", none, none, none, none, none⟩
      (by decide) (by decide) (by decide)⟩
